import Mathlib

/-
Verification development for `sim-gan.py`, a single-file Keras 1.x sketch of
the SimGAN training procedure (refiner network, discriminator network,
composite refiner loss, adversarial training loop).

The script is embedded shallowly:

* Network topologies are embedded as a symbolic layer expression type
  `TensorExpr`, translated line by line from `refiner_network` and
  `discriminator_network`.  Shape propagation of Keras `border_mode='same'`
  layers is given by `shapeOf` (spatial output of a same-padded layer with
  stride `s` on extent `d` is `⌈d / s⌉`).
* `refiner_loss` is embedded over rational-valued tensors (`List ℚ`); the
  pointwise `K.binary_crossentropy` primitive (whose value involves real
  logarithms computed by the framework) is kept as an abstract parameter
  `bce`, while `K.mean`, `K.reduce_sum`, `K.abs`, tensor subtraction and the
  scalar weight `delta = -0.001` are modelled concretely.
* The module's import block, the label construction via
  `np_utils.to_categorical`, the compile/`trainable` sequence of
  `adversarial_training`, its `pass`-bodied training loops, and its printed
  output are each embedded as explicit data or state-transition functions.
-/

namespace SimGAN

/-! ## Image dimensions and training parameters (lines 20-30) -/

def img_width : Nat := 55
def img_height : Nat := 35
def img_channels : Nat := 1

def nb_epochs : Nat := 50
def batch_size : Nat := 32

/-- Number of discriminator updates per step. -/
def k_d : Nat := 1

/-- Number of generative network updates per step. -/
def k_g : Nat := 2

/-! ## Symbolic layer expressions

A `TensorExpr` records the layer applications performed on an input tensor,
mirroring the Keras functional API calls in the script.  All convolutions in
the script use `border_mode='same'`, so the constructor stores only the
filter count, kernel size and `subsample` (stride). -/

inductive TensorExpr where
  | inputTensor : TensorExpr
  | conv2d (nbFilter nbRow nbCol : Nat) (subsample : Nat × Nat) (x : TensorExpr)
  | relu (x : TensorExpr)
  | maxPooling2D (poolSize strides : Nat × Nat) (x : TensorExpr)
  | mergeSum (a b : TensorExpr)
  | softmax (x : TensorExpr)
deriving DecidableEq

/-- Spatial output extent of a `border_mode='same'` layer with stride `s`
on input extent `d`: `⌈d / s⌉`, written with natural division. -/
def sameOutDim (d s : Nat) : Nat := (d + s - 1) / s

/-- Shape `(width, height, channels)` of a layer expression, given the shape
`inp` of the input tensor.  `mergeSum` (Keras `layers.merge(mode='sum')`)
requires both operands to have equal shapes and fails otherwise. -/
def shapeOf (inp : Nat × Nat × Nat) : TensorExpr → Option (Nat × Nat × Nat)
  | .inputTensor => some inp
  | .conv2d nf _ _ (sr, sc) x =>
      (shapeOf inp x).map (fun s => (sameOutDim s.1 sr, sameOutDim s.2.1 sc, nf))
  | .relu x => shapeOf inp x
  | .maxPooling2D _ (sr, sc) x =>
      (shapeOf inp x).map (fun s => (sameOutDim s.1 sr, sameOutDim s.2.1 sc, s.2.2))
  | .mergeSum a b => do
      let sa ← shapeOf inp a
      let sb ← shapeOf inp b
      if sa = sb then some sa else none
  | .softmax x => shapeOf inp x

/-! ## The refiner network (lines 33-69) -/

/-- A ResNet block with two 3x3 convolutional layers of 64 feature maps
(`resnet_block` inside `refiner_network`, lines 41-56): conv, ReLU, conv,
merge-sum with the block input, final ReLU. -/
def resnet_block (input_features : TensorExpr) : TensorExpr :=
  let y := TensorExpr.conv2d 64 3 3 (1, 1) input_features
  let y := TensorExpr.relu y
  let y := TensorExpr.conv2d 64 3 3 (1, 1) y
  let y := TensorExpr.mergeSum input_features y
  TensorExpr.relu y

/-- The `for i in range(n): x = resnet_block(x)` loop of `refiner_network`. -/
def applyResnetBlocks : Nat → TensorExpr → TensorExpr
  | 0, x => x
  | n + 1, x => applyResnetBlocks n (resnet_block x)

/-- `refiner_network` (lines 33-69): a 3x3 convolution producing 64 feature
maps, 4 ResNet blocks, and a final 1x1 convolution producing 1 feature map. -/
def refiner_network (input_image_tensor : TensorExpr) : TensorExpr :=
  let x := TensorExpr.conv2d 64 3 3 (1, 1) input_image_tensor
  let x := applyResnetBlocks 4 x
  TensorExpr.conv2d 1 1 1 (1, 1) x

/-! ## The discriminator network (lines 72-87) -/

/-- `discriminator_network` (lines 72-87): five same-padded convolutions (the
first two with stride 2), one same-padded 3x3 max-pool with stride 1, and a
final softmax activation over the 2 feature maps of the last convolution. -/
def discriminator_network (input_image_tensor : TensorExpr) : TensorExpr :=
  let x := TensorExpr.conv2d 96 3 3 (2, 2) input_image_tensor
  let x := TensorExpr.conv2d 64 3 3 (2, 2) x
  let x := TensorExpr.maxPooling2D (3, 3) (1, 1) x
  let x := TensorExpr.conv2d 32 3 3 (1, 1) x
  let x := TensorExpr.conv2d 32 1 1 (1, 1) x
  let x := TensorExpr.conv2d 2 1 1 (1, 1) x
  TensorExpr.softmax x

/-! ## The refiner loss (lines 110-123)

`refiner_loss(y_true, y_pred)` receives, per the script's docstring, the pairs
`y_true = (real-classification target, synthetic image tensor)` and
`y_pred = (discriminator prediction, refined image tensor)`.  Tensors are
modelled as `List ℚ` of pixel/component values.  The pointwise
`K.binary_crossentropy` primitive is abstracted as a parameter
`bce : ℚ → ℚ → ℚ` (applied as in the script to prediction and target);
`K.mean`, `K.abs`, `K.reduce_sum`, elementwise subtraction and the constant
`delta` are concrete. -/

/-- The constant `delta = -0.001` of `refiner_loss` (line 119). -/
def delta : ℚ := -(1 / 1000)

/-- `K.mean(..., axis=-1)` over a flat tensor: sum divided by length. -/
def K_mean (xs : List ℚ) : ℚ := xs.sum / (xs.length : ℚ)

/-- `K.reduce_sum`. -/
def K_reduce_sum (xs : List ℚ) : ℚ := xs.sum

/-- `K.abs`, elementwise. -/
def K_abs (xs : List ℚ) : List ℚ := xs.map (fun a => |a|)

/-- Elementwise tensor subtraction (`y_pred[0] - y_true[1]` in line 122). -/
def tensorSub (a b : List ℚ) : List ℚ := List.zipWith (fun x y => x - y) a b

/-- `refiner_loss` (lines 110-123):
`loss_real = K.mean(K.binary_crossentropy(y_pred[0], y_true[0]), axis=-1)`,
`loss_reg = K.multiply(delta, K.reduce_sum(K.abs(y_pred[0] - y_true[1])))`,
returning `loss_real + loss_reg`. -/
def refiner_loss (bce : ℚ → ℚ → ℚ) (y_true y_pred : List ℚ × List ℚ) : ℚ :=
  let loss_real := K_mean (List.zipWith bce y_pred.1 y_true.1)
  let loss_reg := delta * K_reduce_sum (K_abs (tensorSub y_pred.1 y_true.2))
  loss_real + loss_reg

/-- The cross-entropy summand as the spec words it: the mean binary
cross-entropy of the discriminator's prediction (`y_pred[0]`) against the
real-classification target (`y_true[0]`). -/
def crossEntropyTerm (bce : ℚ → ℚ → ℚ) (y_true y_pred : List ℚ × List ℚ) : ℚ :=
  (List.zipWith bce y_pred.1 y_true.1).sum /
    ((List.zipWith bce y_pred.1 y_true.1).length : ℚ)

/-- The L1 summand as the spec words it: the sum of absolute differences of
the tensors entering line 122 of the script. -/
def l1Term (y_true y_pred : List ℚ × List ℚ) : ℚ :=
  (List.zipWith (fun a b => |a - b|) y_pred.1 y_true.2).sum

/-! ## Discriminator target labels (lines 134-136) -/

/-- `np.zeros(shape=n)` as a label vector. -/
def np_zeros (n : Nat) : List Nat := List.replicate n 0

/-- `np.ones(shape=n)` as a label vector. -/
def np_ones (n : Nat) : List Nat := List.replicate n 1

/-- `np_utils.to_categorical(y, nb_classes)`: one-hot encodes each class
label into a row of length `nb_classes`. -/
def to_categorical (y : List Nat) (nb_classes : Nat) : List (List ℚ) :=
  y.map (fun label => (List.range nb_classes).map (fun c => if c = label then 1 else 0))

/-- `y_real = np_utils.to_categorical(np.zeros(shape=batch_size), nb_classes=2)`. -/
def y_real : List (List ℚ) := to_categorical (np_zeros batch_size) 2

/-- `y_refined = np_utils.to_categorical(np.ones(shape=batch_size), nb_classes=2)`. -/
def y_refined : List (List ℚ) := to_categorical (np_ones batch_size) 2

/-! ## The import block (lines 8-14)

Python `from M import name` statements run in order at module load; the first
whose module does not export `name` raises `ImportError` and aborts the load,
so no later statement (including the `main()` call) runs.  The export surface
of the external libraries is a parameter `exports`. -/

/-- The `from M import name` statements of lines 8-14, in source order. -/
def script_imports : List (String × String) :=
  [("keras", "backend"), ("keras", "applications"), ("keras", "layers"),
   ("keras", "models"), ("keras.preprocessing", "image"),
   ("keras.utils", "np_utils"), ("numpy", "np")]

/-- The first import statement whose requested name is missing from the
exporting module, if any. -/
def firstFailingImport (exports : String → List String) : Option (String × String) :=
  script_imports.find? (fun p => !((exports p.1).contains p.2))

/-- One line printed by the epoch loop:
`'Epoch: {} of {}.'.format(i, nb_epochs)` (line 148). -/
def epoch_print (i : Nat) : String :=
  "Epoch: " ++ toString i ++ " of " ++ toString nb_epochs ++ "."

/-- The complete stdout trace of `adversarial_training`: the epoch loop
prints one progress line per epoch; every other loop body is `pass`. -/
def adversarial_training_output : List String :=
  (List.range nb_epochs).map epoch_print

/-- Executing the script: the import block runs first; if an import fails the
module load aborts with that statement's error and `main()` (hence
`adversarial_training()`) never runs; otherwise the script's stdout trace is
produced. -/
def run_script (exports : String → List String) : Except (String × String) (List String) :=
  match firstFailingImport exports with
  | some e => Except.error e
  | none => Except.ok adversarial_training_output

/-- A concrete export surface: keras modules export what lines 8-13 need,
numpy does not export an attribute named `np`. -/
def sample_exports : String → List String := fun m =>
  if m = "keras" then ["backend", "applications", "layers", "models"]
  else if m = "keras.preprocessing" then ["image"]
  else if m = "keras.utils" then ["np_utils"]
  else if m = "numpy" then ["ndarray", "zeros", "ones"]
  else []

/-! ## Model compilation sequence (lines 128-132) -/

/-- The observable attributes of a Keras model touched by lines 128-132. -/
structure ModelState where
  compiled : Bool
  optimizer : Option String
  lossName : Option String
  trainable : Bool
deriving DecidableEq

/-- A freshly built model: not compiled, trainable. -/
def freshModel : ModelState :=
  { compiled := false, optimizer := none, lossName := none, trainable := true }

/-- `model.compile(optimizer=..., loss=...)` sets the optimizer and loss and
marks the model compiled; it does not touch `trainable`. -/
def compileModel (m : ModelState) (opt lossN : String) : ModelState :=
  { m with compiled := true, optimizer := some opt, lossName := some lossN }

/-- The three models of `adversarial_training`. -/
structure AdvState where
  refiner : ModelState
  discriminator : ModelState
  combined : ModelState
deriving DecidableEq

/-- State after lines 103-105: all three models built, none compiled. -/
def adv_state0 : AdvState :=
  { refiner := freshModel, discriminator := freshModel, combined := freshModel }

/-- After line 128: `refiner_model.compile(optimizer='sgd', loss=refiner_loss)`. -/
def after_compile_refiner : AdvState :=
  { adv_state0 with refiner := compileModel adv_state0.refiner "sgd" "refiner_loss" }

/-- After line 129: `discriminator_model.compile(optimizer='sgd', loss='categorical_crossentropy')`. -/
def after_compile_discriminator : AdvState :=
  { after_compile_refiner with
    discriminator :=
      compileModel after_compile_refiner.discriminator "sgd" "categorical_crossentropy" }

/-- After line 131: `discriminator_model.trainable = False`. -/
def after_freeze_discriminator : AdvState :=
  { after_compile_discriminator with
    discriminator := { after_compile_discriminator.discriminator with trainable := false } }

/-- After line 132: `combined_model.compile(optimizer='sgd', loss='categorical_crossentropy')`. -/
def after_compile_combined : AdvState :=
  { after_freeze_discriminator with
    combined :=
      compileModel after_freeze_discriminator.combined "sgd" "categorical_crossentropy" }

/-! ## Training loops (lines 138-160)

The state a training iteration could touch: the three models and the two
label arrays.  Every inner loop body in the script is `pass` (the epoch loop
additionally prints, which is modelled by `adversarial_training_output`). -/

structure TrainLoopState where
  refiner : ModelState
  discriminator : ModelState
  combined : ModelState
  y_real_labels : List (List ℚ)
  y_refined_labels : List (List ℚ)
deriving DecidableEq

/-- Body of the 1000-step refiner pre-training loop (lines 139-140): `pass`. -/
def refiner_pretrain_body (s : TrainLoopState) : TrainLoopState := s

/-- Body of the 200-step discriminator pre-training loop (lines 143-144): `pass`. -/
def discriminator_pretrain_body (s : TrainLoopState) : TrainLoopState := s

/-- Body of the `k_g` refiner-update loop (lines 151-154): `pass`. -/
def refiner_update_body (s : TrainLoopState) : TrainLoopState := s

/-- Body of the `k_d` discriminator-update loop (lines 156-160): `pass`. -/
def discriminator_update_body (s : TrainLoopState) : TrainLoopState := s

/-- `for _ in range(n): body` as state iteration. -/
def iterateBody (f : TrainLoopState → TrainLoopState) : Nat → TrainLoopState → TrainLoopState
  | 0, s => s
  | n + 1, s => iterateBody f n (f s)

/-- The shape of a ResNet block as described for `refiner_network`: the sum
of the block's own input tensor with the output of two 3x3 convolutions of 64
feature maps (a ReLU between them), followed by a final ReLU. -/
def IsResnetBlockOf (inp out : TensorExpr) : Prop :=
  out = TensorExpr.relu (TensorExpr.mergeSum inp
    (TensorExpr.conv2d 64 3 3 (1, 1)
      (TensorExpr.relu (TensorExpr.conv2d 64 3 3 (1, 1) inp))))

/-! ## Theorems -/

/-- Mapping absolute value over an elementwise difference sums to the sum of
absolute differences. -/
theorem sum_abs_tensorSub (a b : List ℚ) :
    (K_abs (tensorSub a b)).sum = (List.zipWith (fun x y => |x - y|) a b).sum := by
  induction a generalizing b with
  | nil => simp [K_abs, tensorSub]
  | cons x xs ih =>
    cases b with
    | nil => simp [K_abs, tensorSub]
    | cons y ys =>
      simpa [K_abs, tensorSub, List.zipWith] using congrArg (fun q => |x - y| + q) (ih ys)

/-- C2: `refiner_loss(y_true, y_pred)` is exactly the mean binary
cross-entropy of the discriminator's prediction against the real target plus
the scalar weight `delta` times the sum of absolute pixel differences, with
no other terms. -/
theorem refiner_loss_is_weighted_sum (bce : ℚ → ℚ → ℚ) (y_true y_pred : List ℚ × List ℚ) :
    refiner_loss bce y_true y_pred =
      crossEntropyTerm bce y_true y_pred + delta * l1Term y_true y_pred := by
  unfold refiner_loss crossEntropyTerm l1Term K_mean K_reduce_sum
  rw [sum_abs_tensorSub]

/-- C1: the L1 regularization weight of `refiner_loss` is the negative
constant `delta = -0.001`, so of two loss evaluations with equal
cross-entropy terms, the one with the larger L1 distance has the strictly
SMALLER loss: the term rewards rather than discourages large pixel changes. -/
theorem refiner_loss_decreases_with_l1 (bce : ℚ → ℚ → ℚ) :
    crossEntropyTerm bce ([1], [0]) ([1], [1]) = crossEntropyTerm bce ([1], [1]) ([1], [1]) ∧
    l1Term ([1], [0]) ([1], [1]) = 1 ∧
    l1Term ([1], [1]) ([1], [1]) = 0 ∧
    refiner_loss bce ([1], [0]) ([1], [1]) < refiner_loss bce ([1], [1]) ([1], [1]) := by
  refine ⟨rfl, by norm_num [l1Term], by norm_num [l1Term], ?_⟩
  simp only [refiner_loss, K_mean, K_reduce_sum, K_abs, tensorSub, delta, List.zipWith,
    List.map, List.sum_cons, List.sum_nil]
  norm_num

/-- Iterating a body that fixes every state fixes every state. -/
theorem iterateBody_of_id (f : TrainLoopState → TrainLoopState) (hf : ∀ s, f s = s) :
    ∀ (n : Nat) (s : TrainLoopState), iterateBody f n s = s
  | 0, _ => rfl
  | n + 1, s => by rw [iterateBody, hf]; exact iterateBody_of_id f hf n s

/-- C3: every inner loop body of `adversarial_training` (refiner
pre-training, discriminator pre-training, and the per-epoch refiner and
discriminator update loops) is `pass`: one iteration, and hence the whole
loop, leaves the program state unchanged. -/
theorem training_loop_bodies_are_no_ops (s : TrainLoopState) :
    refiner_pretrain_body s = s ∧
    discriminator_pretrain_body s = s ∧
    refiner_update_body s = s ∧
    discriminator_update_body s = s ∧
    iterateBody refiner_pretrain_body 1000 s = s ∧
    iterateBody discriminator_pretrain_body 200 s = s ∧
    iterateBody refiner_update_body k_g s = s ∧
    iterateBody discriminator_update_body k_d s = s :=
  ⟨rfl, rfl, rfl, rfl,
   iterateBody_of_id _ (fun _ => rfl) 1000 s,
   iterateBody_of_id _ (fun _ => rfl) 200 s,
   iterateBody_of_id _ (fun _ => rfl) k_g s,
   iterateBody_of_id _ (fun _ => rfl) k_d s⟩

/-- C4 counterexample: `adversarial_training` does have deterministic
observable output: its epoch loop prints one line per epoch, 50 lines in
all, the first being the concrete string shown. -/
theorem adversarial_training_emits_deterministic_output :
    adversarial_training_output ≠ [] ∧
    adversarial_training_output.length = nb_epochs ∧
    adversarial_training_output.get? 0 = some "Epoch: 0 of 50." :=
  ⟨by decide, by decide, by decide⟩

/-- C4 amended: the deterministic observable output of
`adversarial_training` is exactly the `nb_epochs` epoch progress lines; all
other loop bodies are `pass` and print nothing. -/
theorem adversarial_training_output_characterization :
    adversarial_training_output.length = nb_epochs ∧
    ∀ i, i < nb_epochs → adversarial_training_output.get? i = some (epoch_print i) := by
  constructor
  · simp [adversarial_training_output]
  · intro i hi
    simp [adversarial_training_output, List.get?_eq_getElem?, List.getElem?_map,
      List.getElem?_range hi]

/-- Witness for the amended C4 statement at epoch 0. -/
theorem adversarial_training_output_characterization_witness :
    0 < nb_epochs ∧ adversarial_training_output.get? 0 = some (epoch_print 0) :=
  ⟨by decide, adversarial_training_output_characterization.2 0 (by decide)⟩

/-- C5: `refiner_network` convolves the input with 3x3 filters into 64
feature maps, chains exactly 4 ResNet blocks (each the sum of its input with
two 3x3/64 convolutions with a ReLU between, then a final ReLU), and ends
with a 1x1 convolution producing 1 feature map. -/
theorem refiner_network_is_residual (t : TensorExpr) :
    ∃ b1 b2 b3 b4 : TensorExpr,
      IsResnetBlockOf (TensorExpr.conv2d 64 3 3 (1, 1) t) b1 ∧
      IsResnetBlockOf b1 b2 ∧
      IsResnetBlockOf b2 b3 ∧
      IsResnetBlockOf b3 b4 ∧
      refiner_network t = TensorExpr.conv2d 1 1 1 (1, 1) b4 :=
  ⟨_, _, _, _, rfl, rfl, rfl, rfl, rfl⟩

/-- C6: every input tensor of shape (55, 35, 1) is mapped by
`refiner_network` to an output of the same shape (55, 35, 1): all its
convolutions are same-padded with unit stride and the final convolution
produces 1 feature map. -/
theorem refiner_network_preserves_shape (inp : Nat × Nat × Nat) (t : TensorExpr)
    (h : shapeOf inp t = some (55, 35, 1)) :
    shapeOf inp (refiner_network t) = some (55, 35, 1) := by
  simp [refiner_network, applyResnetBlocks, resnet_block, shapeOf, sameOutDim, h]

/-- Witness for C6 at the network's input placeholder. -/
theorem refiner_network_preserves_shape_witness :
    shapeOf (55, 35, 1) TensorExpr.inputTensor = some (55, 35, 1) ∧
    shapeOf (55, 35, 1) (refiner_network TensorExpr.inputTensor) = some (55, 35, 1) :=
  ⟨rfl, refiner_network_preserves_shape (55, 35, 1) TensorExpr.inputTensor rfl⟩

/-- C7: on an input of shape (55, 35, 1), `discriminator_network`'s two
stride-2 same-padded convolutions downsample 55 -> 28 -> 14 and
35 -> 18 -> 9, every later layer preserves spatial shape, the output has
shape (14, 9, 2), and the output is a softmax applied to a convolution with
2 feature maps. -/
theorem discriminator_network_output_shape (inp : Nat × Nat × Nat) (t : TensorExpr)
    (h : shapeOf inp t = some (55, 35, 1)) :
    shapeOf inp (TensorExpr.conv2d 96 3 3 (2, 2) t) = some (28, 18, 96) ∧
    shapeOf inp (TensorExpr.conv2d 64 3 3 (2, 2) (TensorExpr.conv2d 96 3 3 (2, 2) t)) =
      some (14, 9, 64) ∧
    shapeOf inp (discriminator_network t) = some (14, 9, 2) ∧
    ∃ u : TensorExpr,
      discriminator_network t = TensorExpr.softmax (TensorExpr.conv2d 2 1 1 (1, 1) u) := by
  refine ⟨?_, ?_, ?_, ⟨_, rfl⟩⟩ <;>
    simp [discriminator_network, shapeOf, sameOutDim, h]

/-- Witness for C7 at the network's input placeholder. -/
theorem discriminator_network_output_shape_witness :
    shapeOf (55, 35, 1) TensorExpr.inputTensor = some (55, 35, 1) ∧
    shapeOf (55, 35, 1) (discriminator_network TensorExpr.inputTensor) = some (14, 9, 2) :=
  ⟨rfl, (discriminator_network_output_shape (55, 35, 1) TensorExpr.inputTensor rfl).2.2.1⟩

/-- C8: when the keras modules export the six names imported in lines 8-13
but numpy exports no attribute named `np`, loading the module stops at
`from numpy import np` with an ImportError, and `main()` /
`adversarial_training()` never run (no output is produced). -/
theorem module_import_error_before_main (exports : String → List String)
    (h1 : "backend" ∈ exports "keras")
    (h2 : "applications" ∈ exports "keras")
    (h3 : "layers" ∈ exports "keras")
    (h4 : "models" ∈ exports "keras")
    (h5 : "image" ∈ exports "keras.preprocessing")
    (h6 : "np_utils" ∈ exports "keras.utils")
    (h7 : "np" ∉ exports "numpy") :
    run_script exports = Except.error ("numpy", "np") := by
  simp [run_script, firstFailingImport, script_imports, List.find?,
    h1, h2, h3, h4, h5, h6, h7]

/-- Witness for C8 at a concrete export surface. -/
theorem module_import_error_before_main_witness :
    run_script sample_exports = Except.error ("numpy", "np") :=
  module_import_error_before_main sample_exports (by decide) (by decide) (by decide)
    (by decide) (by decide) (by decide) (by decide)

/-- C9: the discriminator targets are one-hot over 2 classes for a full
batch of 32: every row of `y_real` is [1, 0] and every row of `y_refined`
is [0, 1]. -/
theorem target_labels_one_hot :
    y_real.length = batch_size ∧
    y_refined.length = batch_size ∧
    y_real = List.replicate 32 [1, 0] ∧
    y_refined = List.replicate 32 [0, 1] :=
  ⟨by decide, by decide, by decide, by decide⟩

/-- C10: `discriminator_model.trainable` is set to `False` strictly between
the compilation of `discriminator_model` (which happens with the model still
trainable) and the compilation of `combined_model` (which happens with it
frozen), and that assignment changes nothing else in the three models. -/
theorem discriminator_frozen_before_combined_compile :
    after_compile_discriminator.discriminator.compiled = true ∧
    after_compile_discriminator.discriminator.trainable = true ∧
    after_freeze_discriminator.discriminator.trainable = false ∧
    after_freeze_discriminator.combined.compiled = false ∧
    after_compile_combined.combined.compiled = true ∧
    after_compile_combined.discriminator.trainable = false ∧
    after_freeze_discriminator.refiner = after_compile_discriminator.refiner ∧
    after_freeze_discriminator.combined = after_compile_discriminator.combined ∧
    after_freeze_discriminator.discriminator =
      { after_compile_discriminator.discriminator with trainable := false } :=
  ⟨rfl, rfl, rfl, rfl, rfl, rfl, rfl, rfl, rfl⟩

end SimGAN
